import Mathlib

/-!
Shallow embedding of the voxel repository's rendering core: the data model and
operations of src/render.rs (`Render`, `TriangleDrawPipeline`, `triangle`) and
the per-frame system of src/main.rs (`main_render_system_primary_window`),
together with proofs of the specified properties.

Conventions: machine integers are `Nat` (all quantities here are `u32`-sized
and no arithmetic overflows); f32 values stored by this program are either
small literals (0, 0.5, 1) or `u32 as f32` casts, represented respectively by
exact rationals and by the exact integer value of the rounded cast; Rust code
that can reach a `.unwrap()` panic returns an `Outcome`, whose `panicked` case
models the panic unwinding out of the function without returning a value.
-/

/-- Fuel-bounded binary logarithm; with 32 units of fuel it computes the
position of the leading bit of any `u32`-sized value. -/
def log2fuel : Nat → Nat → Nat
  | 0, _ => 0
  | fuel + 1, n => if n < 2 then 0 else log2fuel fuel (n / 2) + 1

/-- Value of a Rust `u32 as f32` cast: IEEE-754 binary32 rounding (round to
nearest, ties to even, 24-bit significand). Every `u32` rounds to a
nonnegative integral f32 value, so the result is represented by that exact
integer. For `n ≤ 2^24` the cast is exact. -/
def f32ofNat (n : Nat) : Nat :=
  if n ≤ 2 ^ 24 then n
  else
    let spacing := 2 ^ (log2fuel 32 n - 23)
    let q := n / spacing
    let r := n % spacing
    if 2 * r < spacing then q * spacing
    else if spacing < 2 * r then (q + 1) * spacing
    else if q % 2 = 0 then q * spacing else (q + 1) * spacing

/-- Pixel and vertex formats used by the program (vulkano `Format`). -/
inductive Format
  | B8G8R8A8_SRGB
  | B8G8R8A8_UNORM
  | R8G8B8A8_UNORM
  | R32G32_SFLOAT
  deriving DecidableEq

/-- Graphics queue handle (`Arc<Queue>`): identified by its device and queue
family index, the only observables the embedded code reads from it. -/
structure Queue where
  device : Nat
  queue_family_index : Nat
  deriving DecidableEq

/-- Usage flags of an image view; a render-pass color attachment requires the
color-attachment bit. -/
structure ImageUsage where
  color_attachment : Bool
  deriving DecidableEq

/-- Target image view (`Arc<ImageView>`) over a swapchain image: format,
usage, and the underlying image's 3D extent. -/
structure ImageView where
  format : Format
  usage : ImageUsage
  extent : Nat × Nat × Nat
  deriving DecidableEq

/-- Load operation of a render-pass attachment. -/
inductive LoadOp
  | Clear
  | Load
  | DontCare
  deriving DecidableEq

/-- Store operation of a render-pass attachment. -/
inductive StoreOp
  | Store
  | DontCare
  deriving DecidableEq

/-- Render pass built by `Render::new` via `single_pass_renderpass!`: one
color attachment with the given format, one sample, clear-on-load,
store-on-end, and a single subpass with no depth/stencil. -/
structure RenderPass where
  format : Format
  samples : Nat
  load_op : LoadOp
  store_op : StoreOp
  deriving DecidableEq

/-- Subpass handle (`Subpass::from(render_pass, index)`). -/
structure Subpass where
  render_pass : RenderPass
  index : Nat
  deriving DecidableEq

/-- Number of color attachments of the program's single subpass (its render
pass declares exactly one). -/
def Subpass.num_color_attachments (_ : Subpass) : Nat := 1

/-- Vertex type `PosVertex`: a 2D position of format `R32G32_SFLOAT`. The
coordinates the program stores (0 and ±0.5) are exactly representable in f32,
so exact rationals model the stored values faithfully. -/
structure PosVertex where
  position : ℚ × ℚ
  deriving DecidableEq

/-- Constructor `PosVertex::new`. -/
def PosVertex.new (x y : ℚ) : PosVertex := { position := (x, y) }

/-- Function `triangle()`: the fixed vertex data. -/
def triangle : List PosVertex :=
  [PosVertex.new 0 (-(1 / 2)), PosVertex.new (1 / 2) (1 / 2),
    PosVertex.new (-(1 / 2)) (1 / 2)]

/-- Shader stages of the pipeline, in `stages` order. -/
inductive ShaderStageKind
  | vertex
  | fragment
  deriving DecidableEq

/-- Dynamic state declared by the pipeline. -/
inductive DynamicState
  | Viewport
  deriving DecidableEq

/-- Vertex input state derived from `PosVertex::per_vertex()`: a single
`R32G32_SFLOAT` attribute at location 0. -/
structure VertexInputState where
  attribute_format : Format
  attribute_location : Nat
  deriving DecidableEq

/-- Immutable compiled graphics pipeline (the `GraphicsPipelineCreateInfo` as
instantiated in `TriangleDrawPipeline::new`): two shader stages, the
`PosVertex` input layout, default fixed-function state, one blend attachment
per subpass color attachment, viewport as the only dynamic state, and the
subpass binding. -/
structure GraphicsPipelineDesc where
  stages : List ShaderStageKind
  vertex_input_state : VertexInputState
  color_blend_attachment_count : Nat
  dynamic_state : List DynamicState
  subpass : Subpass
  deriving DecidableEq

/-- Recorded vulkano `Viewport`. In this program every stored component is an
integral f32 value (the literals 0.0 and 1.0, and `u32 as f32` casts of the
dimensions), so each component is represented by its exact integer value. -/
structure Viewport where
  offset : Nat × Nat
  extent : Nat × Nat
  depth_range : Nat × Nat
  deriving DecidableEq

/-- Command buffer usage flag. -/
inductive CommandBufferUsage
  | OneTimeSubmit
  | MultipleSubmit
  | SimultaneousUse
  deriving DecidableEq

/-- Inheritance metadata of a secondary command buffer. -/
structure CommandBufferInheritanceInfo where
  render_pass : Option Subpass
  deriving DecidableEq

/-- One recorded command of a secondary command buffer. -/
inductive SecondaryCommand
  | setViewport (first_viewport : Nat) (viewports : List Viewport)
  | bindPipelineGraphics (pipeline : GraphicsPipelineDesc)
  | bindVertexBuffers (first_binding : Nat) (vertices : List PosVertex)
  | draw (vertex_count instance_count first_vertex first_instance : Nat)
  deriving DecidableEq

/-- Recorded `SecondaryAutoCommandBuffer`. -/
structure SecondaryAutoCommandBuffer where
  queue_family_index : Nat
  usage : CommandBufferUsage
  inheritance : CommandBufferInheritanceInfo
  commands : List SecondaryCommand
  deriving DecidableEq

/-- Framebuffer binding the render pass to concrete attachments. -/
structure Framebuffer where
  render_pass : RenderPass
  attachments : List ImageView
  deriving DecidableEq

/-- Failure cases of framebuffer construction for this program's create-info. -/
inductive FramebufferError
  | attachmentCountMismatch
  | formatMismatch
  | usageNotColorAttachment
  deriving DecidableEq

/-- Modelled from the spec: vulkano's `Framebuffer::new` is external library
code; per the spec, framebuffer construction "fails if the image view's
format/usage is incompatible with the render pass attachment" and the render
pass's "attachment format must match every framebuffer image format used with
it". It validates the attachment count against the render pass's single
attachment, each attachment's format, and the color-attachment usage bit. -/
def Framebuffer.new (render_pass : RenderPass) (attachments : List ImageView) :
    Except FramebufferError Framebuffer :=
  if attachments.length = 1 then
    if attachments.all fun a => decide (a.format = render_pass.format) then
      if attachments.all fun a => a.usage.color_attachment then
        Except.ok { render_pass := render_pass, attachments := attachments }
      else Except.error FramebufferError.usageNotColorAttachment
    else Except.error FramebufferError.formatMismatch
  else Except.error FramebufferError.attachmentCountMismatch

/-- Begin info `RenderPassBeginInfo` as built in `Render::render`: the clear
values (color channels as exact rationals) and the framebuffer. -/
structure RenderPassBeginInfo where
  clear_values : List (Option (ℚ × ℚ × ℚ × ℚ))
  framebuffer : Framebuffer
  deriving DecidableEq

/-- Declared provenance of a subpass's contents. -/
inductive SubpassContents
  | Inline
  | SecondaryCommandBuffers
  deriving DecidableEq

/-- One recorded command of the per-frame primary command buffer. -/
inductive PrimaryCommand
  | beginRenderPass (info : RenderPassBeginInfo) (contents : SubpassContents)
  | executeCommands (buffer : SecondaryAutoCommandBuffer)
  | endRenderPass
  deriving DecidableEq

/-- Built one-time-submit primary command buffer. -/
structure PrimaryAutoCommandBuffer where
  queue_family_index : Nat
  usage : CommandBufferUsage
  commands : List PrimaryCommand
  deriving DecidableEq

/-- GPU-side ordering token (`GpuFuture`). `now` is vulkano's empty future,
`acquired` an opaque wait token handed in by the collaborator (swapchain
acquisition), and `thenExecute before queue cb` is the future returned by
`before.then_execute(queue, cb)`: execution of `cb` on `queue`, ordered after
`before`'s signaled point. -/
inductive GpuFuture
  | now
  | acquired (id : Nat)
  | thenExecute (before : GpuFuture) (queue : Queue)
      (command_buffer : PrimaryAutoCommandBuffer)
  deriving DecidableEq

/-- Ordering test `f.dependsOn g`: the point `g` is `f` itself or an ancestor
in `f`'s chain, so the GPU work represented by `f` never executes before `g`'s
signaled point. -/
def GpuFuture.dependsOn : GpuFuture → GpuFuture → Bool
  | GpuFuture.now, g => decide (GpuFuture.now = g)
  | GpuFuture.acquired i, g => decide (GpuFuture.acquired i = g)
  | GpuFuture.thenExecute before q cb, g =>
      decide (GpuFuture.thenExecute before q cb = g) || GpuFuture.dependsOn before g

/-- Panic sources reachable in the embedded per-frame code: the `.unwrap()` on
`Framebuffer::new` in `Render::render`, and the `.unwrap()` on `set_viewport`
in `TriangleDrawPipeline::draw` when the library's record-time viewport
validation rejects the viewport (builder allocation and the remaining
recording and submission steps are modelled as succeeding). -/
inductive Panic
  | unwrapFramebufferNew (e : FramebufferError)
  | unwrapSetViewport (v : Viewport)
  deriving DecidableEq

/-- Outcome of running Rust code that may panic (e.g. `.unwrap()` on an
error): a panic unwinds out of the function, so no value — success or
failure — is returned to the caller. -/
inductive Outcome (α : Type)
  | ok (value : α)
  | panicked (p : Panic)
  deriving DecidableEq

/-- Predicate: the call returned a value of its return type to the caller
(false exactly when it panicked). -/
def Outcome.returnsValueToCaller {α : Type} : Outcome α → Bool
  | Outcome.ok _ => true
  | Outcome.panicked _ => false

/-- Memory allocator handle (`Arc<StandardMemoryAllocator>`); only its device
is observable here. -/
structure StandardMemoryAllocator where
  device : Nat
  deriving DecidableEq

/-- State of `TriangleDrawPipeline`. The two `Standard*Allocator`s are
modelled by allocation counters: handing out a buffer bumps the counter, the
only state they expose to this embedding. -/
structure TriangleDrawPipeline where
  gfx_queue : Queue
  command_buffer_allocator : Nat
  descriptor_set_allocator : Nat
  pipeline : GraphicsPipelineDesc
  subpass : Subpass
  vertices : List PosVertex
  deriving DecidableEq

/-- Constructor `TriangleDrawPipeline::new`: uploads the fixed `triangle`
vertex data into the vertex buffer once (`Buffer::from_iter`), compiles the
two shader stages and the fixed-function state into the pipeline with viewport
as the only dynamic state, and creates fresh allocators. -/
def TriangleDrawPipeline.new (_allocator : StandardMemoryAllocator)
    (gfx_queue : Queue) (subpass : Subpass) : TriangleDrawPipeline :=
  { gfx_queue := gfx_queue
    command_buffer_allocator := 0
    descriptor_set_allocator := 0
    pipeline :=
      { stages := [ShaderStageKind.vertex, ShaderStageKind.fragment]
        vertex_input_state :=
          { attribute_format := Format.R32G32_SFLOAT, attribute_location := 0 }
        color_blend_attachment_count := subpass.num_color_attachments
        dynamic_state := [DynamicState.Viewport]
        subpass := subpass }
    subpass := subpass
    vertices := triangle }

/-- Method `TriangleDrawPipeline::draw`: records a fresh secondary command
buffer (set dynamic viewport, bind the graphics pipeline, bind the vertex
buffer at slot 0, issue the non-indexed draw of the buffer's vertex count with
one instance) and returns it; `&mut self` is modelled by also returning the
updated state, whose only change is the command-buffer allocator having handed
out one more buffer. -/
def TriangleDrawPipeline.draw (self : TriangleDrawPipeline)
    (viewport_dimensions : Nat × Nat) :
    TriangleDrawPipeline × SecondaryAutoCommandBuffer :=
  let buffer : SecondaryAutoCommandBuffer :=
    { queue_family_index := self.gfx_queue.queue_family_index
      usage := CommandBufferUsage.MultipleSubmit
      inheritance := { render_pass := some self.subpass }
      commands :=
        [SecondaryCommand.setViewport 0
            [{ offset := (0, 0)
               extent := (f32ofNat viewport_dimensions.1, f32ofNat viewport_dimensions.2)
               depth_range := (0, 1) }],
          SecondaryCommand.bindPipelineGraphics self.pipeline,
          SecondaryCommand.bindVertexBuffers 0 self.vertices,
          SecondaryCommand.draw self.vertices.length 1 0 0] }
  ({ self with command_buffer_allocator := self.command_buffer_allocator + 1 },
    buffer)

/-- Record-time viewport validation performed by the library (external vulkano
code) when `draw`'s `set_viewport(...).unwrap()` executes, per the Vulkan
valid-usage rules it enforces: the viewport width must be positive
(VUID-VkViewport-width-01770), and so must the height under the base rule
(VUID-VkViewport-height-01772; the maintenance1 feature relaxes only the
height, a device-dependent detail). Validity — the condition under which
recording is guaranteed to succeed on every device — therefore requires both
extent components to be positive. -/
def Viewport.is_valid (v : Viewport) : Bool :=
  decide (0 < v.extent.1) && decide (0 < v.extent.2)

/-- Method `TriangleDrawPipeline::draw` including the record-time library
validation of the viewport. The repository's own code has no branch on the
dimensions — it always builds the same viewport and command sequence, as
`draw` above records — but vulkano's `set_viewport` validates the viewport
while recording and the repository calls `.unwrap()` on the result, so a
viewport rejected by `Viewport.is_valid` panics instead of returning a buffer.
On valid dimensions the result is exactly `draw`'s. -/
def TriangleDrawPipeline.draw_checked (self : TriangleDrawPipeline)
    (viewport_dimensions : Nat × Nat) :
    Outcome (TriangleDrawPipeline × SecondaryAutoCommandBuffer) :=
  let viewport : Viewport :=
    { offset := (0, 0)
      extent := (f32ofNat viewport_dimensions.1, f32ofNat viewport_dimensions.2)
      depth_range := (0, 1) }
  if viewport.is_valid then
    Outcome.ok (TriangleDrawPipeline.draw self viewport_dimensions)
  else Outcome.panicked (Panic.unwrapSetViewport viewport)

/-- State of the `Render` resource. -/
structure Render where
  gfx_queue : Queue
  command_buffer_allocator : Nat
  render_pass : RenderPass
  triangle_draw_pipeline : TriangleDrawPipeline
  deriving DecidableEq

/-- Constructor `Render::new`: builds the single-pass render pass (one color
attachment of the given output format, 1 sample, clear-on-load, store-on-end),
its subpass 0, the triangle pipeline, and a fresh primary command-buffer
allocator. -/
def Render.new (allocator : StandardMemoryAllocator) (gfx_queue : Queue)
    (output_format : Format) : Render :=
  let render_pass : RenderPass :=
    { format := output_format
      samples := 1
      load_op := LoadOp.Clear
      store_op := StoreOp.Store }
  let subpass : Subpass := { render_pass := render_pass, index := 0 }
  { gfx_queue := gfx_queue
    command_buffer_allocator := 0
    render_pass := render_pass
    triangle_draw_pipeline := TriangleDrawPipeline.new allocator gfx_queue subpass }

/-- Method `Render::render`: reads the target's extent, builds a framebuffer
from the owned render pass and the target (the `.unwrap()` on failure is a
panic), records the one-time-submit primary command buffer — begin the render
pass with a single transparent-black clear value and secondary-command-buffer
subpass contents, execute the triangle pipeline's secondary buffer for the
target's extent, end the render pass — builds it, chains its execution after
`before_future` on the graphics queue, and returns the resulting boxed future.
The `&mut self` receiver is modelled by returning the updated state. -/
def Render.render (self : Render) (before_future : GpuFuture)
    (target : ImageView) : Outcome (Render × GpuFuture) :=
  match Framebuffer.new self.render_pass [target] with
  | Except.error e => Outcome.panicked (Panic.unwrapFramebufferNew e)
  | Except.ok framebuffer =>
    let img_dims := target.extent
    let self1 : Render :=
      { self with command_buffer_allocator := self.command_buffer_allocator + 1 }
    let drawn :=
      TriangleDrawPipeline.draw self1.triangle_draw_pipeline (img_dims.1, img_dims.2.1)
    let command_buffer : PrimaryAutoCommandBuffer :=
      { queue_family_index := self.gfx_queue.queue_family_index
        usage := CommandBufferUsage.OneTimeSubmit
        commands :=
          [PrimaryCommand.beginRenderPass
              { clear_values := [some (0, 0, 0, 0)], framebuffer := framebuffer }
              SubpassContents.SecondaryCommandBuffers,
            PrimaryCommand.executeCommands drawn.2,
            PrimaryCommand.endRenderPass] }
    let self2 : Render := { self1 with triangle_draw_pipeline := drawn.1 }
    let after_future := GpuFuture.thenExecute before_future self.gfx_queue command_buffer
    Outcome.ok (self2, after_future)

/-- Iterated frame loop, as driven by `main_render_system_primary_window`:
each call's returned future is the wait token the caller hands to the next
call. Collects the futures returned by the successive `Render::render`
calls; a panic in any call propagates. -/
def Render.renderChainFutures :
    Render → GpuFuture → List ImageView → Outcome (Render × List GpuFuture)
  | r, _, [] => Outcome.ok (r, [])
  | r, before, t :: ts =>
    match Render.render r before t with
    | Outcome.panicked p => Outcome.panicked p
    | Outcome.ok (r1, f) =>
      match Render.renderChainFutures r1 f ts with
      | Outcome.panicked p => Outcome.panicked p
      | Outcome.ok (r2, fs) => Outcome.ok (r2, f :: fs)

/-- Result of the collaborator call `primary_window.renderer.acquire()`. -/
inductive AcquireResult
  | err (msg : String)
  | ok (future : GpuFuture)
  deriving DecidableEq

/-- Per-frame observables of the primary `VulkanoWindow` collaborator. -/
structure VulkanoWindow where
  acquire_result : AcquireResult
  swapchain_image_view : ImageView
  deriving DecidableEq

/-- Externally visible steps taken by one run of the per-frame system. -/
inductive FrameEvent
  | logError (msg : String)
  | renderCalled (target : ImageView)
  | presented (wait_on : GpuFuture)
  deriving DecidableEq

/-- Test for a `Render::render` invocation event. -/
def FrameEvent.isRenderCalled : FrameEvent → Bool
  | FrameEvent.renderCalled _ => true
  | _ => false

/-- Test for a presentation event. -/
def FrameEvent.isPresented : FrameEvent → Bool
  | FrameEvent.presented _ => true
  | _ => false

/-- System `main_render_system_primary_window` of src/main.rs: with no primary
window the system does nothing; otherwise it starts the frame with
`acquire()`, and on failure logs the error and returns early; on success it
calls `Render::render` with the acquire future and the swapchain image view,
then presents using the returned future. Returns the updated `Render`
resource and the trace of events. -/
def main_render_system_primary_window (window : Option VulkanoWindow)
    (render : Render) : Outcome (Render × List FrameEvent) :=
  match window with
  | none => Outcome.ok (render, [])
  | some w =>
    match w.acquire_result with
    | AcquireResult.err e => Outcome.ok (render, [FrameEvent.logError e])
    | AcquireResult.ok before =>
      match Render.render render before w.swapchain_image_view with
      | Outcome.panicked p => Outcome.panicked p
      | Outcome.ok (render1, after_render) =>
        Outcome.ok (render1,
          [FrameEvent.renderCalled w.swapchain_image_view,
            FrameEvent.presented after_render])

/-- Concrete allocator used by the closed evaluation theorems. -/
def alloc0 : StandardMemoryAllocator := { device := 0 }

/-- Concrete graphics queue used by the closed evaluation theorems. -/
def queue0 : Queue := { device := 0, queue_family_index := 0 }

/-- Concrete `Render` resource, built exactly as `create_pipelines` does. -/
def render0 : Render := Render.new alloc0 queue0 Format.B8G8R8A8_SRGB

/-- Concrete subpass for building a standalone triangle pipeline. -/
def subpass0 : Subpass :=
  { render_pass :=
      { format := Format.B8G8R8A8_SRGB
        samples := 1
        load_op := LoadOp.Clear
        store_op := StoreOp.Store }
    index := 0 }

/-- Concrete standalone triangle pipeline. -/
def tdp0 : TriangleDrawPipeline := TriangleDrawPipeline.new alloc0 queue0 subpass0

/-- Concrete target image view compatible with `render0`'s render pass. -/
def goodTarget : ImageView :=
  { format := Format.B8G8R8A8_SRGB
    usage := { color_attachment := true }
    extent := (800, 600, 1) }

/-- Concrete target image view whose format differs from `render0`'s
configured attachment format. -/
def badTarget : ImageView :=
  { format := Format.R8G8B8A8_UNORM
    usage := { color_attachment := true }
    extent := (800, 600, 1) }

/-- Concrete window whose frame acquisition fails. -/
def window_err : VulkanoWindow :=
  { acquire_result := AcquireResult.err "fail", swapchain_image_view := goodTarget }

/-- Exactness of the `u32 as f32` cast below the 24-bit significand bound. -/
theorem f32ofNat_of_le {n : Nat} (h : n ≤ 2 ^ 24) : f32ofNat n = n := by
  unfold f32ofNat
  rw [if_pos h]

/-- The fuel-bounded binary logarithm never overshoots: for positive `n`,
`2 ^ log2fuel fuel n ≤ n` whatever the fuel. -/
theorem log2fuel_pow_le {fuel n : Nat} (h : 0 < n) : 2 ^ log2fuel fuel n ≤ n := by
  induction fuel generalizing n with
  | zero =>
    simp only [log2fuel, pow_zero]
    exact h
  | succ fuel ih =>
    simp only [log2fuel]
    by_cases h2 : n < 2
    · rw [if_pos h2]
      simpa using h
    · rw [if_neg h2]
      have hpos : 0 < n / 2 := Nat.div_pos (Nat.not_lt.mp h2) (by norm_num)
      calc 2 ^ (log2fuel fuel (n / 2) + 1)
          = 2 ^ log2fuel fuel (n / 2) * 2 := by rw [pow_succ]
        _ ≤ n / 2 * 2 := Nat.mul_le_mul_right 2 (ih hpos)
        _ ≤ n := Nat.div_mul_le_self n 2

/-- Positivity of every rounding branch of `f32ofNat`. -/
theorem ite_rounding_pos {q s : Nat} (hq : 0 < q) (hs : 0 < s)
    {c1 c2 c3 : Prop} [Decidable c1] [Decidable c2] [Decidable c3] :
    0 < if c1 then q * s else if c2 then (q + 1) * s
        else if c3 then q * s else (q + 1) * s := by
  split
  · exact Nat.mul_pos hq hs
  · split
    · exact Nat.mul_pos (Nat.succ_pos q) hs
    · split
      · exact Nat.mul_pos hq hs
      · exact Nat.mul_pos (Nat.succ_pos q) hs

/-- The `u32 as f32` cast of a positive value is positive. -/
theorem f32ofNat_pos {n : Nat} (h : 0 < n) : 0 < f32ofNat n := by
  by_cases h24 : n ≤ 2 ^ 24
  · rw [f32ofNat_of_le h24]
    exact h
  · have hsple : 2 ^ (log2fuel 32 n - 23) ≤ n :=
      le_trans (Nat.pow_le_pow_right (by norm_num) (Nat.sub_le _ 23))
        (log2fuel_pow_le h)
    have hsp : 0 < 2 ^ (log2fuel 32 n - 23) := pow_pos (by norm_num) _
    have hq : 0 < n / 2 ^ (log2fuel 32 n - 23) := Nat.div_pos hsple hsp
    unfold f32ofNat
    rw [if_neg h24]
    exact ite_rounding_pos hq hsp

/-- Reflexivity of the future-chain ordering. -/
theorem GpuFuture.dependsOn_refl (f : GpuFuture) : f.dependsOn f = true := by
  cases f <;> simp [GpuFuture.dependsOn]

/-- Transitivity of the future-chain ordering. -/
theorem GpuFuture.dependsOn_trans {a b c : GpuFuture}
    (hab : a.dependsOn b = true) (hbc : b.dependsOn c = true) :
    a.dependsOn c = true := by
  induction a with
  | now =>
    have hb : GpuFuture.now = b := by simpa [GpuFuture.dependsOn] using hab
    rw [← hb] at hbc
    exact hbc
  | acquired i =>
    have hb : GpuFuture.acquired i = b := by simpa [GpuFuture.dependsOn] using hab
    rw [← hb] at hbc
    exact hbc
  | thenExecute p q cb ih =>
    have hab2 : GpuFuture.thenExecute p q cb = b ∨ p.dependsOn b = true := by
      simpa [GpuFuture.dependsOn] using hab
    rcases hab2 with hb | hp
    · rw [← hb] at hbc
      exact hbc
    · simp [GpuFuture.dependsOn, ih hp]

/-- Inversion of a successful `Render::render` call: the returned future is
the command buffer's submission chained after the wait token on the graphics
queue, and the state update leaves every constructed pipeline object unchanged,
bumping only the two command-buffer allocation counters. -/
theorem Render.render_ok_inv {r r' : Render} {before f : GpuFuture}
    {t : ImageView} (h : Render.render r before t = Outcome.ok (r', f)) :
    (∃ cb, f = GpuFuture.thenExecute before r.gfx_queue cb) ∧
    r'.gfx_queue = r.gfx_queue ∧
    r'.render_pass = r.render_pass ∧
    r'.triangle_draw_pipeline.pipeline = r.triangle_draw_pipeline.pipeline ∧
    r'.triangle_draw_pipeline.vertices = r.triangle_draw_pipeline.vertices ∧
    r'.triangle_draw_pipeline.subpass = r.triangle_draw_pipeline.subpass ∧
    r'.triangle_draw_pipeline.gfx_queue = r.triangle_draw_pipeline.gfx_queue ∧
    r'.triangle_draw_pipeline.descriptor_set_allocator =
      r.triangle_draw_pipeline.descriptor_set_allocator ∧
    r'.command_buffer_allocator = r.command_buffer_allocator + 1 ∧
    r'.triangle_draw_pipeline.command_buffer_allocator =
      r.triangle_draw_pipeline.command_buffer_allocator + 1 := by
  unfold Render.render at h
  split at h
  · exact absurd h (by simp)
  · simp only [Outcome.ok.injEq, Prod.mk.injEq] at h
    obtain ⟨h1, h2⟩ := h
    subst h1
    subst h2
    exact ⟨⟨_, rfl⟩, rfl, rfl, rfl, rfl, rfl, rfl, rfl, rfl, rfl⟩

/-- The iterated frame loop preserves every constructed pipeline object. -/
theorem Render.renderChainFutures_ok_preserves {targets : List ImageView}
    {r r' : Render} {before : GpuFuture} {fs : List GpuFuture}
    (h : Render.renderChainFutures r before targets = Outcome.ok (r', fs)) :
    r'.gfx_queue = r.gfx_queue ∧
    r'.render_pass = r.render_pass ∧
    r'.triangle_draw_pipeline.pipeline = r.triangle_draw_pipeline.pipeline ∧
    r'.triangle_draw_pipeline.vertices = r.triangle_draw_pipeline.vertices ∧
    r'.triangle_draw_pipeline.subpass = r.triangle_draw_pipeline.subpass := by
  induction targets generalizing r before fs with
  | nil =>
    simp only [Render.renderChainFutures, Outcome.ok.injEq, Prod.mk.injEq] at h
    obtain ⟨rfl, -⟩ := h
    exact ⟨rfl, rfl, rfl, rfl, rfl⟩
  | cons t ts ih =>
    simp only [Render.renderChainFutures] at h
    split at h
    · exact absurd h (by simp)
    next r1 f h1 =>
      split at h
      · exact absurd h (by simp)
      next r2 fs1 h2 =>
        simp only [Outcome.ok.injEq, Prod.mk.injEq] at h
        obtain ⟨rfl, -⟩ := h
        obtain ⟨-, hq, hrp, hp, hv, hs, -⟩ := Render.render_ok_inv h1
        obtain ⟨iq, irp, ip, iv, is⟩ := ih h2
        exact ⟨iq.trans hq, irp.trans hrp, ip.trans hp, iv.trans hv, is.trans hs⟩

/-- Claim C1, as stated, fails on the code: calling `Render::render` with a
target image view whose format differs from the render pass's configured
attachment format does fail deterministically at framebuffer construction,
but the error is not returned to the caller as an explicit failure value —
the `.unwrap()` panics, so the call returns no value at all. Concrete input:
`render0` (attachment format B8G8R8A8_SRGB) with a R8G8B8A8_UNORM target. -/
theorem render_incompatible_no_error_value_counterexample :
    Render.render render0 GpuFuture.now badTarget =
      Outcome.panicked (Panic.unwrapFramebufferNew FramebufferError.formatMismatch) ∧
    (Render.render render0 GpuFuture.now badTarget).returnsValueToCaller = false :=
  ⟨rfl, rfl⟩

/-- Claim C1 (amended): if `Render::render` is called with a target image view
whose format or usage is incompatible with the render pass's configured color
attachment, it fails deterministically with a framebuffer-construction error —
never a silently produced black/garbage frame — and no command buffer is built
and no partial frame is submitted; however the failure is a panic from the
`.unwrap()` on `Framebuffer::new`, which unwinds out of `render`, rather than
an explicit failure value returned to the caller. -/
theorem render_incompatible_target_panics (r : Render) (before : GpuFuture)
    (t : ImageView)
    (h : ¬(t.format = r.render_pass.format ∧ t.usage.color_attachment = true)) :
    ∃ e, Render.render r before t =
        Outcome.panicked (Panic.unwrapFramebufferNew e) ∧
      (Render.render r before t).returnsValueToCaller = false := by
  by_cases h1 : t.format = r.render_pass.format
  · have h2 : t.usage.color_attachment = false := by
      cases hb : t.usage.color_attachment
      · rfl
      · exact absurd ⟨h1, hb⟩ h
    refine ⟨FramebufferError.usageNotColorAttachment, ?_⟩
    unfold Render.render Framebuffer.new
    simp [h1, h2, Outcome.returnsValueToCaller]
  · refine ⟨FramebufferError.formatMismatch, ?_⟩
    unfold Render.render Framebuffer.new
    simp [h1, Outcome.returnsValueToCaller]

/-- Witness for the amended claim C1 at a concrete incompatible target. -/
theorem render_incompatible_target_panics_witness :
    ¬(badTarget.format = render0.render_pass.format ∧
        badTarget.usage.color_attachment = true) ∧
    ∃ e, Render.render render0 GpuFuture.now badTarget =
        Outcome.panicked (Panic.unwrapFramebufferNew e) ∧
      (Render.render render0 GpuFuture.now badTarget).returnsValueToCaller = false :=
  ⟨by decide, render_incompatible_target_panics render0 GpuFuture.now badTarget (by decide)⟩

/-- Claim C3, as stated, fails on the code: `draw` records the viewport extent
as the `u32 as f32` cast of the dimensions, and for width 16777217 = 2^24 + 1
(a positive u32) the cast rounds to 16777216, so the recorded extent is not
exactly [width, height]. -/
theorem draw_viewport_inexact_counterexample :
    (TriangleDrawPipeline.draw tdp0 (16777217, 1)).2.commands.head? =
      some (SecondaryCommand.setViewport 0
        [{ offset := (0, 0), extent := (16777216, 1), depth_range := (0, 1) }]) ∧
    (16777216 : Nat) ≠ 16777217 :=
  ⟨by decide, by decide⟩

/-- Claim C3 (amended): for all (width, height) with width > 0 and height > 0
that are exactly representable in f32 (at most 2^24, which covers every real
viewport), `draw` produces a secondary command buffer whose recorded viewport
has offset [0,0], extent exactly [width, height], and depth range [0,1]; its
first recorded command is that viewport set. -/
theorem draw_viewport_exact_small_dims (tdp : TriangleDrawPipeline) (w h : Nat)
    (hw : 0 < w) (hh : 0 < h) (hw24 : w ≤ 2 ^ 24) (hh24 : h ≤ 2 ^ 24) :
    (TriangleDrawPipeline.draw tdp (w, h)).2.commands.head? =
      some (SecondaryCommand.setViewport 0
        [{ offset := (0, 0), extent := (w, h), depth_range := (0, 1) }]) := by
  simp [TriangleDrawPipeline.draw, f32ofNat_of_le hw24, f32ofNat_of_le hh24]

/-- Witness for the amended claim C3 at the concrete viewport 800 by 600. -/
theorem draw_viewport_exact_small_dims_witness :
    (0 : Nat) < 800 ∧ (0 : Nat) < 600 ∧
    (800 : Nat) ≤ 2 ^ 24 ∧ (600 : Nat) ≤ 2 ^ 24 ∧
    (TriangleDrawPipeline.draw tdp0 (800, 600)).2.commands.head? =
      some (SecondaryCommand.setViewport 0
        [{ offset := (0, 0), extent := (800, 600), depth_range := (0, 1) }]) :=
  ⟨by norm_num, by norm_num, by norm_num, by norm_num,
    draw_viewport_exact_small_dims tdp0 800 600 (by norm_num) (by norm_num)
      (by norm_num) (by norm_num)⟩

/-- Claim C5: every call to `draw` records, in this order: set the dynamic
viewport; bind the graphics pipeline; bind the vertex buffer at slot 0; issue
a non-indexed draw of exactly the vertex buffer's vertex count with 1 instance
(first vertex 0, first instance 0). It performs no queue submission itself —
submission exists in this model only as `GpuFuture.thenExecute`, which `draw`
neither consumes nor produces — and its only effect besides returning the
recorded secondary buffer is the command-buffer allocator having handed out
one more buffer. -/
theorem draw_records_exact_commands (tdp : TriangleDrawPipeline)
    (dims : Nat × Nat) :
    (TriangleDrawPipeline.draw tdp dims).2.commands =
      [SecondaryCommand.setViewport 0
          [{ offset := (0, 0)
             extent := (f32ofNat dims.1, f32ofNat dims.2)
             depth_range := (0, 1) }],
        SecondaryCommand.bindPipelineGraphics tdp.pipeline,
        SecondaryCommand.bindVertexBuffers 0 tdp.vertices,
        SecondaryCommand.draw tdp.vertices.length 1 0 0] ∧
    (TriangleDrawPipeline.draw tdp dims).1 =
      { tdp with command_buffer_allocator := tdp.command_buffer_allocator + 1 } :=
  ⟨rfl, rfl⟩

/-- Claim C7: calling `draw` twice with the same viewport dimensions produces
secondary command buffers with identical recorded state — the buffers are
equal as records (same viewport, same bound pipeline, same bound vertex
buffer, same draw parameters, same inheritance and usage); recording is a pure
function of the dimensions and the (unchanged) pipeline fields, with no hidden
frame-counter-dependent behavior. -/
theorem draw_idempotent_recording (tdp : TriangleDrawPipeline)
    (dims : Nat × Nat) :
    (TriangleDrawPipeline.draw (TriangleDrawPipeline.draw tdp dims).1 dims).2 =
      (TriangleDrawPipeline.draw tdp dims).2 :=
  rfl

/-- Claim C10, as stated, fails on the code: `draw` with a zero width does not
succeed. The repository's code records the viewport unconditionally, but the
library's record-time viewport validation rejects a zero-width viewport
(VUID-VkViewport-width-01770) and the repository's `set_viewport(...).unwrap()`
turns that into a panic, so at the concrete input (0, 600) no buffer is
returned to the caller. -/
theorem draw_zero_width_panics_counterexample :
    TriangleDrawPipeline.draw_checked tdp0 (0, 600) =
      Outcome.panicked (Panic.unwrapSetViewport
        { offset := (0, 0), extent := (0, 600), depth_range := (0, 1) }) ∧
    (TriangleDrawPipeline.draw_checked tdp0 (0, 600)).returnsValueToCaller = false :=
  ⟨rfl, rfl⟩

/-- Claim C10 (amended): the repository's `draw` code itself has no branch
rejecting zero dimensions — it always builds the same viewport and command
sequence — but the library's record-time viewport validation makes the
`set_viewport(...).unwrap()` panic on a zero dimension; for every u32 pair
with width > 0 and height > 0 the call succeeds, returns exactly the recorded
buffer, and records the viewport extent as the dimensions converted to
floating point. -/
theorem draw_checked_positive_dims_succeeds (tdp : TriangleDrawPipeline)
    (w h : Nat) (hw : 0 < w) (hh : 0 < h)
    (hw32 : w < 2 ^ 32) (hh32 : h < 2 ^ 32) :
    TriangleDrawPipeline.draw_checked tdp (w, h) =
      Outcome.ok (TriangleDrawPipeline.draw tdp (w, h)) ∧
    (TriangleDrawPipeline.draw tdp (w, h)).2.commands.head? =
      some (SecondaryCommand.setViewport 0
        [{ offset := (0, 0)
           extent := (f32ofNat w, f32ofNat h)
           depth_range := (0, 1) }]) := by
  constructor
  · simp [TriangleDrawPipeline.draw_checked, Viewport.is_valid,
      f32ofNat_pos hw, f32ofNat_pos hh]
  · rfl

/-- Witness for the amended claim C10 at the concrete viewport 800 by 600. -/
theorem draw_checked_positive_dims_succeeds_witness :
    (0 : Nat) < 800 ∧ (0 : Nat) < 600 ∧
    (800 : Nat) < 2 ^ 32 ∧ (600 : Nat) < 2 ^ 32 ∧
    (TriangleDrawPipeline.draw_checked tdp0 (800, 600) =
        Outcome.ok (TriangleDrawPipeline.draw tdp0 (800, 600)) ∧
      (TriangleDrawPipeline.draw tdp0 (800, 600)).2.commands.head? =
        some (SecondaryCommand.setViewport 0
          [{ offset := (0, 0), extent := (800, 600), depth_range := (0, 1) }])) :=
  ⟨by norm_num, by norm_num, by norm_num, by norm_num,
    draw_checked_positive_dims_succeeds tdp0 800 600 (by norm_num) (by norm_num)
      (by norm_num) (by norm_num)⟩

/-- Claim C2: for every wait token and target, `Render::render` submits the
frame's finalized command buffer on the graphics queue chained after the
token (`then_execute`) and returns the resulting future; consequently, over N
successive calls each passing the previously returned future as its wait
token, frame i's returned future is the submission chained directly after
wait token i (the element i of `before :: fs`), and its GPU work is ordered
after — never before — both token i's signaled point and the initial token.
The render path contains no CPU-side blocking operation: ordering is carried
solely by the returned future chain. -/
theorem render_chain_ordered_after_tokens
    (r : Render) (before : GpuFuture) (targets : List ImageView)
    (r' : Render) (fs : List GpuFuture)
    (hrun : Render.renderChainFutures r before targets = Outcome.ok (r', fs)) :
    (∀ i (h : i < fs.length),
        ∃ cb, fs.get ⟨i, h⟩ =
          GpuFuture.thenExecute ((before :: fs).get ⟨i, Nat.lt_succ_of_lt h⟩)
            r.gfx_queue cb) ∧
    (∀ i (h : i < fs.length),
        GpuFuture.dependsOn (fs.get ⟨i, h⟩) before = true) := by
  induction targets generalizing r before fs with
  | nil =>
    simp only [Render.renderChainFutures, Outcome.ok.injEq, Prod.mk.injEq] at hrun
    obtain ⟨-, rfl⟩ := hrun
    exact ⟨fun i h => absurd h (Nat.not_lt_zero i),
      fun i h => absurd h (Nat.not_lt_zero i)⟩
  | cons t ts ih =>
    simp only [Render.renderChainFutures] at hrun
    split at hrun
    · exact absurd hrun (by simp)
    next r1 f h1 =>
      split at hrun
      · exact absurd hrun (by simp)
      next r2 fs1 h2 =>
        simp only [Outcome.ok.injEq, Prod.mk.injEq] at hrun
        obtain ⟨rfl, rfl⟩ := hrun
        obtain ⟨⟨cb0, hcb0⟩, hq1, -⟩ := Render.render_ok_inv h1
        obtain ⟨ihA, ihB⟩ := ih r1 f fs1 h2
        have hf_dep : f.dependsOn before = true := by
          rw [hcb0]
          simp [GpuFuture.dependsOn, GpuFuture.dependsOn_refl]
        refine ⟨?_, ?_⟩
        · intro i h
          cases i with
          | zero => exact ⟨cb0, hcb0⟩
          | succ j =>
            obtain ⟨cb, hcb⟩ := ihA j (Nat.lt_of_succ_lt_succ h)
            refine ⟨cb, ?_⟩
            rw [← hq1]
            exact hcb
        · intro i h
          cases i with
          | zero => exact hf_dep
          | succ j =>
            exact GpuFuture.dependsOn_trans
              (ihB j (Nat.lt_of_succ_lt_succ h)) hf_dep

/-- Witness for claim C2: two chained frames from the concrete renderer, each
returned future chained directly after its wait token and ordered after the
initial token. -/
theorem render_chain_ordered_after_tokens_witness :
    ∃ r' fs,
      Render.renderChainFutures render0 GpuFuture.now [goodTarget, goodTarget] =
        Outcome.ok (r', fs) ∧
      ((∀ i (h : i < fs.length),
          ∃ cb, fs.get ⟨i, h⟩ =
            GpuFuture.thenExecute
              ((GpuFuture.now :: fs).get ⟨i, Nat.lt_succ_of_lt h⟩)
              render0.gfx_queue cb) ∧
        (∀ i (h : i < fs.length),
          GpuFuture.dependsOn (fs.get ⟨i, h⟩) GpuFuture.now = true)) :=
  ⟨_, _, rfl, render_chain_ordered_after_tokens render0 GpuFuture.now
    [goodTarget, goodTarget] _ _ rfl⟩

/-- Claim C4: the vertex buffer is uploaded once at construction with exactly
the 3 two-dimensional vertices (0, -0.5), (0.5, 0.5), (-0.5, 0.5) and is never
mutated afterwards — not by `draw` for any viewport size, and not by any
number of chained `Render::render` frames. -/
theorem vertex_buffer_fixed_and_immutable
    (alloc : StandardMemoryAllocator) (q : Queue) (s : Subpass)
    (tdp : TriangleDrawPipeline) (dims : Nat × Nat)
    (r r' : Render) (before : GpuFuture) (targets : List ImageView)
    (fs : List GpuFuture)
    (hrun : Render.renderChainFutures r before targets = Outcome.ok (r', fs)) :
    (TriangleDrawPipeline.new alloc q s).vertices = triangle ∧
    triangle =
      [PosVertex.new 0 (-(1 / 2)), PosVertex.new (1 / 2) (1 / 2),
        PosVertex.new (-(1 / 2)) (1 / 2)] ∧
    triangle.length = 3 ∧
    (TriangleDrawPipeline.draw tdp dims).1.vertices = tdp.vertices ∧
    r'.triangle_draw_pipeline.vertices = r.triangle_draw_pipeline.vertices :=
  ⟨rfl, rfl, rfl, rfl, (Render.renderChainFutures_ok_preserves hrun).2.2.2.1⟩

/-- Witness for claim C4 after two concrete chained frames. -/
theorem vertex_buffer_fixed_and_immutable_witness :
    ∃ r' fs,
      Render.renderChainFutures render0 GpuFuture.now [goodTarget, goodTarget] =
        Outcome.ok (r', fs) ∧
      ((TriangleDrawPipeline.new alloc0 queue0 subpass0).vertices = triangle ∧
        triangle =
          [PosVertex.new 0 (-(1 / 2)), PosVertex.new (1 / 2) (1 / 2),
            PosVertex.new (-(1 / 2)) (1 / 2)] ∧
        triangle.length = 3 ∧
        (TriangleDrawPipeline.draw tdp0 (800, 600)).1.vertices = tdp0.vertices ∧
        r'.triangle_draw_pipeline.vertices =
          render0.triangle_draw_pipeline.vertices) :=
  ⟨_, _, rfl, vertex_buffer_fixed_and_immutable alloc0 queue0 subpass0 tdp0
    (800, 600) render0 _ GpuFuture.now [goodTarget, goodTarget] _ rfl⟩

/-- Claim C6: every completed call to `Render::render` begins the render pass
with exactly one clear value, all four channels 0 (transparent black), for the
sole color attachment, and declares that subpass contents come from secondary
command buffers rather than inline commands: the first command of the
submitted primary buffer is exactly that begin command. -/
theorem render_begins_pass_with_clear_and_secondary_contents
    (r r' : Render) (before f : GpuFuture) (t : ImageView)
    (hrun : Render.render r before t = Outcome.ok (r', f)) :
    ∃ q cb, f = GpuFuture.thenExecute before q cb ∧
      ∃ fb, cb.commands.head? =
        some (PrimaryCommand.beginRenderPass
          { clear_values := [some (0, 0, 0, 0)], framebuffer := fb }
          SubpassContents.SecondaryCommandBuffers) := by
  unfold Render.render at hrun
  split at hrun
  · exact absurd hrun (by simp)
  next fb hfb =>
    simp only [Outcome.ok.injEq, Prod.mk.injEq] at hrun
    obtain ⟨-, h2⟩ := hrun
    subst h2
    exact ⟨r.gfx_queue, _, rfl, fb, rfl⟩

/-- Witness for claim C6 at a concrete compatible frame. -/
theorem render_begins_pass_clear_witness :
    ∃ r' f, Render.render render0 GpuFuture.now goodTarget = Outcome.ok (r', f) ∧
      ∃ q cb, f = GpuFuture.thenExecute GpuFuture.now q cb ∧
        ∃ fb, cb.commands.head? =
          some (PrimaryCommand.beginRenderPass
            { clear_values := [some (0, 0, 0, 0)], framebuffer := fb }
            SubpassContents.SecondaryCommandBuffers) :=
  ⟨_, _, rfl, render_begins_pass_with_clear_and_secondary_contents render0 _
    GpuFuture.now _ goodTarget rfl⟩

/-- Claim C8: in the per-frame system, if the image-acquire step fails,
`Render::render` is never called for that iteration: the system returns early
after logging, the frame trace holds no render call and no presentation, and
the `Render` resource is returned unchanged (so no framebuffer and no command
buffer were constructed — every construction bumps an allocator counter). -/
theorem acquire_failure_skips_render (w : VulkanoWindow) (r : Render)
    (e : String) (hacq : w.acquire_result = AcquireResult.err e) :
    main_render_system_primary_window (some w) r =
      Outcome.ok (r, [FrameEvent.logError e]) ∧
    (FrameEvent.logError e).isRenderCalled = false ∧
    (FrameEvent.logError e).isPresented = false := by
  refine ⟨?_, rfl, rfl⟩
  simp [main_render_system_primary_window, hacq]

/-- Witness for claim C8 at a concrete window whose acquire fails. -/
theorem acquire_failure_skips_render_witness :
    window_err.acquire_result = AcquireResult.err "fail" ∧
    (main_render_system_primary_window (some window_err) render0 =
        Outcome.ok (render0, [FrameEvent.logError "fail"]) ∧
      (FrameEvent.logError "fail").isRenderCalled = false ∧
      (FrameEvent.logError "fail").isPresented = false) :=
  ⟨rfl, acquire_failure_skips_render window_err render0 "fail" rfl⟩

/-- Claim C9: every call to `draw` and every completed call to `Render::render`
leaves the constructed pipeline objects unchanged — the graphics pipeline, the
vertex buffer contents, the subpass binding, the render pass and the queue are
identical before and after each call; only the command-buffer allocation
counters change. -/
theorem render_and_draw_preserve_pipeline_objects
    (tdp : TriangleDrawPipeline) (dims : Nat × Nat)
    (r r' : Render) (before f : GpuFuture) (t : ImageView)
    (hrun : Render.render r before t = Outcome.ok (r', f)) :
    ((TriangleDrawPipeline.draw tdp dims).1.pipeline = tdp.pipeline ∧
      (TriangleDrawPipeline.draw tdp dims).1.vertices = tdp.vertices ∧
      (TriangleDrawPipeline.draw tdp dims).1.subpass = tdp.subpass ∧
      (TriangleDrawPipeline.draw tdp dims).1.gfx_queue = tdp.gfx_queue ∧
      (TriangleDrawPipeline.draw tdp dims).1.descriptor_set_allocator =
        tdp.descriptor_set_allocator) ∧
    (r'.render_pass = r.render_pass ∧
      r'.gfx_queue = r.gfx_queue ∧
      r'.triangle_draw_pipeline.pipeline = r.triangle_draw_pipeline.pipeline ∧
      r'.triangle_draw_pipeline.vertices = r.triangle_draw_pipeline.vertices ∧
      r'.triangle_draw_pipeline.subpass = r.triangle_draw_pipeline.subpass) ∧
    ((TriangleDrawPipeline.draw tdp dims).1.command_buffer_allocator =
        tdp.command_buffer_allocator + 1 ∧
      r'.command_buffer_allocator = r.command_buffer_allocator + 1 ∧
      r'.triangle_draw_pipeline.command_buffer_allocator =
        r.triangle_draw_pipeline.command_buffer_allocator + 1) := by
  obtain ⟨-, hq, hrp, hp, hv, hs, -, -, ha1, ha2⟩ := Render.render_ok_inv hrun
  exact ⟨⟨rfl, rfl, rfl, rfl, rfl⟩, ⟨hrp, hq, hp, hv, hs⟩, ⟨rfl, ha1, ha2⟩⟩

/-- Witness for claim C9 at a concrete frame and a concrete draw. -/
theorem render_and_draw_preserve_pipeline_objects_witness :
    ∃ r' f, Render.render render0 GpuFuture.now goodTarget = Outcome.ok (r', f) ∧
      (((TriangleDrawPipeline.draw tdp0 (800, 600)).1.pipeline = tdp0.pipeline ∧
        (TriangleDrawPipeline.draw tdp0 (800, 600)).1.vertices = tdp0.vertices ∧
        (TriangleDrawPipeline.draw tdp0 (800, 600)).1.subpass = tdp0.subpass ∧
        (TriangleDrawPipeline.draw tdp0 (800, 600)).1.gfx_queue = tdp0.gfx_queue ∧
        (TriangleDrawPipeline.draw tdp0 (800, 600)).1.descriptor_set_allocator =
          tdp0.descriptor_set_allocator) ∧
      (r'.render_pass = render0.render_pass ∧
        r'.gfx_queue = render0.gfx_queue ∧
        r'.triangle_draw_pipeline.pipeline =
          render0.triangle_draw_pipeline.pipeline ∧
        r'.triangle_draw_pipeline.vertices =
          render0.triangle_draw_pipeline.vertices ∧
        r'.triangle_draw_pipeline.subpass =
          render0.triangle_draw_pipeline.subpass) ∧
      ((TriangleDrawPipeline.draw tdp0 (800, 600)).1.command_buffer_allocator =
          tdp0.command_buffer_allocator + 1 ∧
        r'.command_buffer_allocator = render0.command_buffer_allocator + 1 ∧
        r'.triangle_draw_pipeline.command_buffer_allocator =
          render0.triangle_draw_pipeline.command_buffer_allocator + 1)) :=
  ⟨_, _, rfl, render_and_draw_preserve_pipeline_objects tdp0 (800, 600) render0
    _ GpuFuture.now _ goodTarget rfl⟩
